import Mathlib

/-!
Shallow embedding of the SmartSpeaker session orchestrator from main.py
and of the tool registry from tools/registry.py of the speech-to-speech
smart-speaker repository.

External collaborators (the PyAudio capture stream, the realtime transport
client, the AudioHandler, the hardware controller) are represented by the
events the orchestrator emits towards them; the SpeakerState record
mirrors the mutable attributes assigned in the SmartSpeaker initializer.
The asyncio handlers run their awaits sequentially under the conversation
lock, so each handler is embedded as a function from state to state paired
with the list of external calls it makes, in program order.
-/

namespace STS

/-- Status of an asyncio background task created by the orchestrator. -/
inductive TaskStatus where
  | notStarted
  | running
  | cancelled
  deriving DecidableEq, Repr

/-- Payload sent back for a tool call: either an ordinary result value or
a Python dict of the shape mapping the key error to a message. -/
inductive ToolPayload where
  | value (s : String)
  | errObj (msg : String)
  deriving DecidableEq, Repr

/-- Call made by the orchestrator to one of its external collaborators,
in program order: PyAudio stream open/close, AudioHandler operations,
transport sends, and log lines. -/
inductive Event where
  | openStream (id : Nat)
  | closeStream (id : Nat)
  | stopPlaybackImmediately
  | startCaptureLoop
  | startStreaming
  | sendAudio (payload : List Nat)
  | speakerWrite (payload : List Nat)
  | sendToolResult (id : Nat) (payload : ToolPayload)
  | stopStreaming
  | audioCleanup
  | clientClose
  | hardwareClose
  | terminateAudio
  | logWarning (msg : String)
  | logError (msg : String)
  deriving DecidableEq, Repr

/-- Mutable attributes of the SmartSpeaker object (main.py, the
initializer plus the task attributes assigned in start_recording and
start).  A PyAudio stream handle is an abstract identifier; nextStream
is the supply of fresh handles. -/
structure SpeakerState where
  stream : Option Nat
  nextStream : Nat
  frames : List (List Nat)
  recording : Bool
  mic_muted : Bool
  speaker_muted : Bool
  ready : Bool
  recording_task : TaskStatus
  streaming_task : TaskStatus
  message_handler : TaskStatus
  commands_task : TaskStatus
  hardware_started : Bool
  deriving DecidableEq, Repr

/-- State established by the SmartSpeaker initializer: no stream, no
frames, not recording, mic muted, speaker unmuted, not ready. -/
def initState : SpeakerState where
  stream := none
  nextStream := 0
  frames := []
  recording := false
  mic_muted := true
  speaker_muted := false
  ready := false
  recording_task := .notStarted
  streaming_task := .notStarted
  message_handler := .notStarted
  commands_task := .notStarted
  hardware_started := false

/-- The initial state once handle_commands has set the ready flag. -/
def readyInit : SpeakerState := { initState with ready := true }

/-- Audio device configuration (CHANNELS, sample width in bytes derived
from SAMPLE_FORMAT, RATE), imported by main.py from the config module and
treated here as already-validated parameters. -/
structure WavConfig where
  channels : Nat
  sampwidth : Nat
  rate : Nat
  deriving DecidableEq, Repr

/-- A concrete configuration: mono, 16-bit samples, 24 kHz. -/
def wavCfg : WavConfig := ⟨1, 2, 24000⟩

/-- Little-endian encoding of a number on a given number of bytes, as the
Python struct packing used by the wave module writes header fields. -/
def leBytes : Nat → Nat → List Nat
  | 0, _ => []
  | w + 1, n => n % 256 :: leBytes w (n / 256)

/-- The 44-byte RIFF/WAVE header that the Python wave module produces for
the configured channels, sample width and rate over a data chunk of
dataLen bytes. -/
def wavHeader (cfg : WavConfig) (dataLen : Nat) : List Nat :=
  [82, 73, 70, 70] ++ leBytes 4 (36 + dataLen) ++ [87, 65, 86, 69] ++
    [102, 109, 116, 32] ++ leBytes 4 16 ++ leBytes 2 1 ++
    leBytes 2 cfg.channels ++ leBytes 4 cfg.rate ++
    leBytes 4 (cfg.rate * cfg.channels * cfg.sampwidth) ++
    leBytes 2 (cfg.channels * cfg.sampwidth) ++ leBytes 2 (cfg.sampwidth * 8) ++
    [100, 97, 116, 97] ++ leBytes 4 dataLen

/-- Embedding of SmartSpeaker encode_wav: encapsulate the raw frames into
WAV format, i.e. the header followed by the byte-join of the frames. -/
def encode_wav (cfg : WavConfig) (frames : List (List Nat)) : List Nat :=
  wavHeader cfg frames.flatten.length ++ frames.flatten

/-- Embedding of SmartSpeaker start_recording.  If already recording it
only logs a warning.  Otherwise, in program order: open the PyAudio input
stream (which may raise; openOk is the outcome, and on failure the except
clause logs while no attribute has yet been assigned), set the recording
flag, unmute the mic, clear the frames, stop any ongoing playback, then
create the record_audio and start_streaming tasks. -/
def start_recording (openOk : Bool) (s : SpeakerState) :
    SpeakerState × List Event :=
  if s.recording then
    (s, [.logWarning "Attempted to start recording, but already recording."])
  else if openOk then
    ({ s with
        stream := some s.nextStream
        nextStream := s.nextStream + 1
        recording := true
        mic_muted := false
        frames := []
        recording_task := .running
        streaming_task := .running },
      [.openStream s.nextStream, .stopPlaybackImmediately,
        .startCaptureLoop, .startStreaming])
  else
    (s, [.logError "Failed to start recording"])

/-- Outcome of one stream read in the capture loop: a chunk of data, or a
raised exception with its message. -/
inductive ReadResult where
  | ok (data : List Nat)
  | err (msg : String)
  deriving DecidableEq, Repr

/-- Embedding of SmartSpeaker record_audio: while the recording flag
holds, read a chunk and append it to the frames.  A read exception is
caught by the generic except clause, which logs the error and lets the
coroutine end; cancellation (the end of the reads schedule) is caught and
the coroutine ends with the state as it is. -/
def record_audio (reads : List ReadResult) (s : SpeakerState) :
    SpeakerState × List Event :=
  match reads with
  | [] => (s, [])
  | r :: rest =>
    if s.recording then
      match r with
      | .ok d => record_audio rest { s with frames := s.frames ++ [d] }
      | .err m => (s, [.logError ("Error during recording: " ++ m)])
    else (s, [])

/-- The finally clause of stop_recording: if a stream is open, stop and
close it and clear the attribute. -/
def closeStreamFinally (s : SpeakerState) (evs : List Event) :
    SpeakerState × List Event :=
  match s.stream with
  | some i => ({ s with stream := none }, evs ++ [.closeStream i])
  | none => (s, evs)

/-- Embedding of SmartSpeaker stop_recording.  If not recording it only
logs.  Otherwise: clear the recording flag, mute the mic, cancel and await
the recording task (record_audio swallows the cancellation, so the await
returns); if no frames were captured, log and return early; otherwise
encode the frames as WAV, send the audio, stop playback, cancel and await
the streaming task (streamingCancelRaises tells whether that await
re-raises the cancellation, which skips the clearing of the frames), then
clear the frames.  The finally clause always stops and closes the
stream. -/
def stop_recording (cfg : WavConfig) (streamingCancelRaises : Bool)
    (s : SpeakerState) : SpeakerState × List Event :=
  if ¬ s.recording then
    (s, [.logWarning "Attempted to stop recording, but not currently recording."])
  else
    let s1 := { s with
      recording := false
      mic_muted := true
      recording_task := .cancelled }
    if s1.frames = [] then
      closeStreamFinally s1
        [.logWarning "No audio frames were recorded. Skipping send_audio."]
    else
      let payload := encode_wav cfg s1.frames
      let evs := [Event.sendAudio payload, Event.stopPlaybackImmediately]
      let s2 := { s1 with streaming_task := .cancelled }
      if streamingCancelRaises then
        closeStreamFinally s2 evs
      else
        closeStreamFinally { s2 with frames := [] } evs

/-- Embedding of SmartSpeaker unmute_mic_and_stop_playback (the handler of
the r command): mute the speaker, unmute the mic, start recording, then
stop playback once more. -/
def unmute_mic_and_stop_playback (openOk : Bool) (s : SpeakerState) :
    SpeakerState × List Event :=
  let r := start_recording openOk { s with speaker_muted := true, mic_muted := false }
  (r.fst, r.snd ++ [.stopPlaybackImmediately])

/-- Embedding of SmartSpeaker mute_mic_and_manage_output (the handler of
the enter command): unmute the speaker, mute the mic, stop recording. -/
def mute_mic_and_manage_output (cfg : WavConfig) (streamingCancelRaises : Bool)
    (s : SpeakerState) : SpeakerState × List Event :=
  stop_recording cfg streamingCancelRaises
    { s with speaker_muted := false, mic_muted := true }

/-- Body of the dequeue loop of SmartSpeaker handle_commands for one
command: the readiness check, then the dispatch on the command under the
conversation lock. -/
def handleCommand (cfg : WavConfig) (openOk streamingCancelRaises : Bool)
    (c : String) (s : SpeakerState) : SpeakerState × List Event :=
  if ¬ s.ready then
    (s, [.logWarning ("Ignored command before readiness: " ++ c)])
  else if c = "r" then
    unmute_mic_and_stop_playback openOk s
  else if c = "enter" then
    mute_mic_and_manage_output cfg streamingCancelRaises s
  else
    (s, [.logWarning ("Unknown command received: " ++ c)])

/-- The dequeue loop of handle_commands applied to a backlog of
already-queued commands, processing them in arrival order. -/
def processQueue (cfg : WavConfig) : List String → SpeakerState →
    SpeakerState × List Event
  | [], s => (s, [])
  | c :: rest, s =>
    let r := handleCommand cfg true false c s
    let r2 := processQueue cfg rest r.fst
    (r2.fst, r.snd ++ r2.snd)

/-- Embedding of SmartSpeaker handle_commands: sleep two seconds (during
which graceCmds were put on the external queue by the hardware
controller), then set the ready flag, then enter the dequeue loop, whose
body checks the ready flag on each command. -/
def handle_commands_run (cfg : WavConfig) (graceCmds : List String)
    (s : SpeakerState) : SpeakerState × List Event :=
  processQueue cfg graceCmds { s with ready := true }

/-- Embedding of SmartSpeaker play_audio (the audio-delta callback): if
the speaker is muted, skip playback; if the delta is empty, log; otherwise
hand the data to the audio handler.  The state is not modified. -/
def play_audio (audio_data : List Nat) (s : SpeakerState) : List Event :=
  if s.speaker_muted then []
  else if audio_data = [] then
    [.logWarning "No audio data received to play."]
  else [.speakerWrite audio_data]

/-- Embedding of SmartSpeaker stop_playback (the interrupt callback). -/
def stop_playback (_s : SpeakerState) : List Event :=
  [.stopPlaybackImmediately]

/-- Part of SmartSpeaker start that runs before the indefinite wait: the
hardware controller is created, the transport connects, and the
message-handler and command-handler tasks are created. -/
def start_setup (s : SpeakerState) : SpeakerState :=
  { s with
    hardware_started := true
    message_handler := .running
    commands_task := .running }

/-- Embedding of SmartSpeaker cleanup, in program order: stop streaming,
clean up the audio handler, close the transport client, close the
hardware controller if present, stop recording if a recording is active,
terminate PyAudio. -/
def cleanup (cfg : WavConfig) (streamingCancelRaises : Bool)
    (s : SpeakerState) : SpeakerState × List Event :=
  let evs0 := [Event.stopStreaming, Event.audioCleanup, Event.clientClose]
  let evs1 := if s.hardware_started then evs0 ++ [Event.hardwareClose] else evs0
  let r := if s.recording then stop_recording cfg streamingCancelRaises s
           else (s, [])
  (r.fst, evs1 ++ r.snd ++ [Event.terminateAudio])

/-- Outcome of running the execute method of a tool: a returned payload or
a raised exception with its message. -/
inductive ToolOutcome where
  | ok (v : ToolPayload)
  | raise (msg : String)

/-- A registered tool: its name property and its execute method, taking
the (opaque) keyword arguments. -/
structure Tool where
  name : String
  exec : List String → ToolOutcome

/-- A single-quote character, for building the Python error messages. -/
def sq : String := String.singleton (Char.ofNat 39)

/-- Message of the ValueError raised by the registry for a missing tool
name. -/
def toolNotFoundMsg (name : String) : String :=
  "Tool " ++ sq ++ name ++ sq ++ " not found"

/-- Embedding of ToolRegistry execute_tool: find the first tool with the
given name; run it, converting a handler exception into a returned error
dict; if no tool matches, raise ValueError (the error case of Except). -/
def execute_tool (tools : List Tool) (tool_name : String)
    (args : List String) : Except String ToolPayload :=
  match tools.find? (fun t => t.name == tool_name) with
  | some t =>
    match t.exec args with
    | .ok v => .ok v
    | .raise m => .ok (.errObj m)
  | none => .error (toolNotFoundMsg tool_name)

/-- A ToolCallRequest delivered by the transport. -/
structure ToolCall where
  id : Nat
  name : String
  arguments : List String

/-- Embedding of SmartSpeaker handle_tool_call: execute the tool through
the registry and send the result back under the call id; any exception is
caught and an error dict holding its message is sent back under the same
id instead. -/
def handle_tool_call (tools : List Tool) (call : ToolCall) : List Event :=
  match execute_tool tools call.name call.arguments with
  | .ok v => [.sendToolResult call.id v]
  | .error m => [.sendToolResult call.id (.errObj m)]

/-- Demonstration tool whose execute method always raises. -/
def boomTool : Tool := ⟨"boom_tool", fun _ => .raise "kaput"⟩

/-- Demonstration tool call naming the raising tool. -/
def demoCall : ToolCall := ⟨5, "boom_tool", []⟩

/-- Demonstration tool modelling the registered weather tool. -/
def get_weather_tool : Tool := ⟨"get_weather", fun _ => .ok (.value "sunny")⟩

/-- Tool call with a name absent from the registry. -/
def frobCall : ToolCall := ⟨3, "frobnicate", []⟩

/-- Predicate selecting capture-loop creation events. -/
def isCaptureStart (e : Event) : Bool :=
  match e with
  | .startCaptureLoop => true
  | _ => false

/-- Predicate selecting playback-stop requests. -/
def isStopPlayback (e : Event) : Bool :=
  match e with
  | .stopPlaybackImmediately => true
  | _ => false

/-- Predicate selecting capture-stream opens. -/
def isOpenStream (e : Event) : Bool :=
  match e with
  | .openStream _ => true
  | _ => false

/-- Predicate selecting transport audio sends. -/
def isSendAudio (e : Event) : Bool :=
  match e with
  | .sendAudio _ => true
  | _ => false

/-- Count of capture-loop starts in a trace. -/
def captureStarts (tr : List Event) : Nat := tr.countP isCaptureStart

/-- Count of transport audio sends in a trace. -/
def sendAudioCount (tr : List Event) : Nat := tr.countP isSendAudio

/-- Count of tool-result sends carrying the given call id. -/
def sendsFor (i : Nat) (tr : List Event) : Nat :=
  tr.countP (fun e => match e with | .sendToolResult j _ => j == i | _ => false)

/-- Index of the first event satisfying a predicate. -/
def firstIdx (p : Event → Bool) (tr : List Event) : Nat := tr.findIdx p

/-- An external stimulus handled by the orchestrator between command
boundaries: a queued command, a batch of capture reads, an audio delta, or
an interrupt signal. -/
inductive Step where
  | cmd (c : String) (openOk streamingCancelRaises : Bool)
  | reads (rs : List ReadResult)
  | audioDelta (d : List Nat)
  | interrupt

/-- Effect of one stimulus on the session state. -/
def stepRun (cfg : WavConfig) (st : Step) (s : SpeakerState) :
    SpeakerState × List Event :=
  match st with
  | .cmd c o r => handleCommand cfg o r c s
  | .reads rs => record_audio rs s
  | .audioDelta d => (s, play_audio d s)
  | .interrupt => (s, stop_playback s)

/-- The session state after a sequence of stimuli. -/
def runSteps (cfg : WavConfig) : List Step → SpeakerState → SpeakerState
  | [], s => s
  | st :: rest, s => runSteps cfg rest (stepRun cfg st s).fst

/-- At most one of microphone and speaker is unmuted. -/
def muteExclusive (s : SpeakerState) : Bool := s.mic_muted || s.speaker_muted

/-- The capture-and-send scenario: toggle to record, capture three frames,
toggle again to send. -/
def scenarioC7 (cfg : WavConfig) (f1 f2 f3 : List Nat) :
    SpeakerState × List Event :=
  let r1 := handleCommand cfg true false "r" readyInit
  let r2 := record_audio [.ok f1, .ok f2, .ok f3] r1.fst
  let r3 := handleCommand cfg true false "enter" r2.fst
  (r3.fst, r1.snd ++ r2.snd ++ r3.snd)

/-- C1: issuing the record command twice in immediate succession while a
recording is already active produces exactly one state change, not two:
after a first press has started recording, start_recording on the
resulting state returns it unchanged (only a warning is logged), a second
press leaves the state exactly as after the first, and no second
capture loop is started. -/
theorem toggle_idempotent_under_repetition (cfg : WavConfig) (b b2 : Bool)
    (s : SpeakerState) (h : s.recording = false) (hr : s.ready = true) :
    start_recording b (handleCommand cfg true false "r" s).fst =
      ((handleCommand cfg true false "r" s).fst,
        [Event.logWarning "Attempted to start recording, but already recording."]) ∧
    captureStarts (handleCommand cfg true false "r" s).snd = 1 ∧
    (handleCommand cfg b2 false "r" (handleCommand cfg true false "r" s).fst).fst =
      (handleCommand cfg true false "r" s).fst ∧
    captureStarts
      (handleCommand cfg b2 false "r" (handleCommand cfg true false "r" s).fst).snd = 0 := by
  obtain ⟨st, ns, fr, rec, mm, sm, rd, rt, stt, mh, ct, hw⟩ := s
  simp only at h hr
  subst h
  subst hr
  refine ⟨?_, ?_, ?_, ?_⟩ <;>
    simp [handleCommand, unmute_mic_and_stop_playback, start_recording,
      captureStarts, isCaptureStart, List.countP_cons, List.countP_nil]

/-- Witness for C1 at the ready initial state. -/
theorem toggle_idempotent_under_repetition_witness :
    start_recording true (handleCommand wavCfg true false "r" readyInit).fst =
      ((handleCommand wavCfg true false "r" readyInit).fst,
        [Event.logWarning "Attempted to start recording, but already recording."]) ∧
    captureStarts (handleCommand wavCfg true false "r" readyInit).snd = 1 ∧
    (handleCommand wavCfg true false "r"
        (handleCommand wavCfg true false "r" readyInit).fst).fst =
      (handleCommand wavCfg true false "r" readyInit).fst ∧
    captureStarts
      (handleCommand wavCfg true false "r"
        (handleCommand wavCfg true false "r" readyInit).fst).snd = 0 :=
  toggle_idempotent_under_repetition wavCfg true true readyInit (by decide) (by decide)

/-- C2: the claimed readiness gate does not drop grace-window commands.
handle_commands sets the ready flag before the first dequeue, so a
command enqueued during the two-second startup sleep is processed once the
loop starts: from the initial state with the r command queued during the
grace window, the loop starts a recording (one capture loop is created and
the recording flag is set), instead of dropping the command as both the
spec and the in-code comments describe. -/
theorem grace_window_command_processed :
    (handle_commands_run wavCfg ["r"] initState).fst.recording = true ∧
    (handle_commands_run wavCfg ["r"] initState).fst.mic_muted = false ∧
    captureStarts (handle_commands_run wavCfg ["r"] initState).snd = 1 := by
  decide

/-- C3: for every tool-call request, exactly one send_tool_result call is
made to the transport, keyed by the original call id, whether the named
handler succeeds, raises, or the name is unknown; a handler exception is
converted to an error payload holding its message rather than
propagating. -/
theorem tool_roundtrip_exactly_once (tools : List Tool) (call : ToolCall) :
    (handle_tool_call tools call).length = 1 ∧
    sendsFor call.id (handle_tool_call tools call) = 1 ∧
    ∀ t m, tools.find? (fun u => u.name == call.name) = some t →
      t.exec call.arguments = ToolOutcome.raise m →
      handle_tool_call tools call =
        [Event.sendToolResult call.id (ToolPayload.errObj m)] := by
  rcases hfind : tools.find? (fun u => u.name == call.name) with _ | t
  · refine ⟨?_, ?_, ?_⟩
    · simp [handle_tool_call, execute_tool, hfind]
    · simp [handle_tool_call, execute_tool, hfind, sendsFor,
        List.countP_cons, List.countP_nil]
    · intro t m hf
      rw [hfind] at hf
      exact absurd hf (by simp)
  · rcases hexec : t.exec call.arguments with v | m
    · refine ⟨?_, ?_, ?_⟩
      · simp [handle_tool_call, execute_tool, hfind, hexec]
      · simp [handle_tool_call, execute_tool, hfind, hexec, sendsFor,
          List.countP_cons, List.countP_nil]
      · intro t' m hf hex
        rw [hfind] at hf
        obtain rfl : t = t' := by exact Option.some.inj hf
        rw [hexec] at hex
        exact absurd hex (by simp)
    · refine ⟨?_, ?_, ?_⟩
      · simp [handle_tool_call, execute_tool, hfind, hexec]
      · simp [handle_tool_call, execute_tool, hfind, hexec, sendsFor,
          List.countP_cons, List.countP_nil]
      · intro t' m' hf hex
        rw [hfind] at hf
        obtain rfl : t = t' := by exact Option.some.inj hf
        rw [hexec] at hex
        obtain rfl : m = m' := by exact (ToolOutcome.raise.injEq _ _).mp hex
        simp [handle_tool_call, execute_tool, hfind, hexec]

/-- Witness for C3 with a tool whose handler raises. -/
theorem tool_roundtrip_exactly_once_witness :
    (handle_tool_call [boomTool] demoCall).length = 1 ∧
    sendsFor 5 (handle_tool_call [boomTool] demoCall) = 1 ∧
    handle_tool_call [boomTool] demoCall =
      [Event.sendToolResult 5 (ToolPayload.errObj "kaput")] :=
  ⟨(tool_roundtrip_exactly_once [boomTool] demoCall).1,
    (tool_roundtrip_exactly_once [boomTool] demoCall).2.1,
    (tool_roundtrip_exactly_once [boomTool] demoCall).2.2 boomTool "kaput"
      (by rfl) (by rfl)⟩

/-- C4 counterexample: for the unknown name frobnicate, the registry does
not return an error payload with the exact message claimed by the spec; it
raises a ValueError carrying the message naming the tool, which is only
then caught by the orchestrator handler. -/
theorem unknown_tool_counterexample :
    execute_tool [get_weather_tool] "frobnicate" [] ≠
      Except.ok (ToolPayload.errObj "tool not found") ∧
    execute_tool [get_weather_tool] "frobnicate" [] =
      Except.error (toolNotFoundMsg "frobnicate") := by
  have he : execute_tool [get_weather_tool] "frobnicate" [] =
      Except.error (toolNotFoundMsg "frobnicate") := by rfl
  refine ⟨?_, he⟩
  rw [he]
  intro hcontra
  exact Except.noConfusion hcontra

/-- C4 (amended): for a tool name not present in the registry, execute_tool
raises a ValueError whose message names the missing tool; the orchestrator
handler catches it and sends an error payload with that message back under
the original call id. -/
theorem unknown_tool_raises_and_error_sent (tools : List Tool) (call : ToolCall)
    (h : tools.find? (fun t => t.name == call.name) = none) :
    execute_tool tools call.name call.arguments =
      Except.error (toolNotFoundMsg call.name) ∧
    handle_tool_call tools call =
      [Event.sendToolResult call.id (ToolPayload.errObj (toolNotFoundMsg call.name))] := by
  constructor
  · simp [execute_tool, h]
  · simp [handle_tool_call, execute_tool, h]

/-- Witness for the amended C4 at the concrete frobnicate call. -/
theorem unknown_tool_raises_and_error_sent_witness :
    execute_tool [get_weather_tool] frobCall.name frobCall.arguments =
      Except.error (toolNotFoundMsg frobCall.name) ∧
    handle_tool_call [get_weather_tool] frobCall =
      [Event.sendToolResult frobCall.id
        (ToolPayload.errObj (toolNotFoundMsg frobCall.name))] :=
  unknown_tool_raises_and_error_sent [get_weather_tool] frobCall (by rfl)

/-- C5 counterexample: in the transition that starts recording, the
playback-stop request is not issued before the capture stream is opened;
from the ready initial state the first external call of start_recording is
the stream open, and the playback stop only follows it. -/
theorem playback_cancel_order_counterexample :
    (start_recording true readyInit).snd =
      [Event.openStream 0, Event.stopPlaybackImmediately,
        Event.startCaptureLoop, Event.startStreaming] ∧
    ¬ firstIdx isStopPlayback (start_recording true readyInit).snd <
        firstIdx isOpenStream (start_recording true readyInit).snd := by
  decide

/-- C5 (amended): in every transition that starts recording, the ongoing
playback is stopped after the capture stream is opened but before the
capture loop and streaming tasks are started. -/
theorem playback_cancel_after_open_before_loop (s : SpeakerState)
    (h : s.recording = false) :
    (start_recording true s).snd =
      [Event.openStream s.nextStream, Event.stopPlaybackImmediately,
        Event.startCaptureLoop, Event.startStreaming] ∧
    firstIdx isOpenStream (start_recording true s).snd <
      firstIdx isStopPlayback (start_recording true s).snd ∧
    firstIdx isStopPlayback (start_recording true s).snd <
      firstIdx isCaptureStart (start_recording true s).snd := by
  refine ⟨?_, ?_, ?_⟩ <;>
    simp [start_recording, h, firstIdx, List.findIdx_cons, isOpenStream,
      isStopPlayback, isCaptureStart]

/-- Witness for the amended C5 at the ready initial state. -/
theorem playback_cancel_after_open_before_loop_witness :
    (start_recording true readyInit).snd =
      [Event.openStream readyInit.nextStream, Event.stopPlaybackImmediately,
        Event.startCaptureLoop, Event.startStreaming] ∧
    firstIdx isOpenStream (start_recording true readyInit).snd <
      firstIdx isStopPlayback (start_recording true readyInit).snd ∧
    firstIdx isStopPlayback (start_recording true readyInit).snd <
      firstIdx isCaptureStart (start_recording true readyInit).snd :=
  playback_cancel_after_open_before_loop readyInit (by decide)

/-- C6 counterexample: after a read exception inside the capture loop, the
session is not in the idle state the claim describes: the recording flag
is still set, the mic is still unmuted and the capture stream is still
open; only the error log is emitted. -/
theorem read_failure_not_idle_counterexample :
    (record_audio [ReadResult.err "boom"]
      (start_recording true readyInit).fst).fst.recording = true ∧
    (record_audio [ReadResult.err "boom"]
      (start_recording true readyInit).fst).fst.mic_muted = false ∧
    (record_audio [ReadResult.err "boom"]
      (start_recording true readyInit).fst).fst.stream = some 0 ∧
    Event.logError ("Error during recording: " ++ "boom") ∈
      (record_audio [ReadResult.err "boom"]
        (start_recording true readyInit).fst).snd := by
  decide

/-- C6 (amended): an exception raised by a stream read inside the capture
loop is caught and logged and the capture loop terminates, with the
process still running, but the loop leaves the session state entirely
unchanged: the recording flag, mute flags and capture stream are reset
only by the next stop command. -/
theorem read_failure_logs_and_state_unchanged (s : SpeakerState) (m : String)
    (rest : List ReadResult) (h : s.recording = true) :
    record_audio (ReadResult.err m :: rest) s =
      (s, [Event.logError ("Error during recording: " ++ m)]) := by
  simp [record_audio, h]

/-- Witness for the amended C6 on a freshly started recording. -/
theorem read_failure_logs_and_state_unchanged_witness :
    record_audio [ReadResult.err "boom"] (start_recording true readyInit).fst =
      ((start_recording true readyInit).fst,
        [Event.logError ("Error during recording: " ++ "boom")]) :=
  read_failure_logs_and_state_unchanged (start_recording true readyInit).fst
    "boom" [] (by decide)

/-- C7 counterexample: in the capture-and-send scenario with the three
one-byte frames 1, 2 and 3, the single transport send does not carry the
bare concatenation of the frames (it carries their WAV encoding, whose
44-byte header precedes the data). -/
theorem capture_payload_not_concatenation :
    Event.sendAudio ([1] ++ [2] ++ [3]) ∉ (scenarioC7 wavCfg [1] [2] [3]).snd ∧
    sendAudioCount (scenarioC7 wavCfg [1] [2] [3]).snd = 1 ∧
    Event.sendAudio (encode_wav wavCfg [[1], [2], [3]]) ∈
      (scenarioC7 wavCfg [1] [2] [3]).snd := by
  decide

/-- C7 (amended): starting a recording, capturing exactly three frames and
stopping results in exactly one send_audio call, whose payload is the WAV
encoding of the concatenation of the three captured frames (the 44-byte
header followed by the concatenated frames), after which the recording
flag is cleared and the mic is muted. -/
theorem capture_three_frames_and_send (cfg : WavConfig) (f1 f2 f3 : List Nat) :
    sendAudioCount (scenarioC7 cfg f1 f2 f3).snd = 1 ∧
    Event.sendAudio (encode_wav cfg [f1, f2, f3]) ∈ (scenarioC7 cfg f1 f2 f3).snd ∧
    (scenarioC7 cfg f1 f2 f3).fst.recording = false ∧
    (scenarioC7 cfg f1 f2 f3).fst.mic_muted = true := by
  refine ⟨?_, ?_, ?_, ?_⟩ <;>
    simp [scenarioC7, handleCommand, unmute_mic_and_stop_playback,
      mute_mic_and_manage_output, start_recording, stop_recording, record_audio,
      closeStreamFinally, readyInit, initState, sendAudioCount, isSendAudio,
      List.countP_cons, List.countP_nil]

/-- All the session fields that stop_recording settles or preserves when a
recording is active, over every branch (frames present or not, streaming
cancellation re-raised or not, stream attribute set or not). -/
theorem stop_recording_fields (cfg : WavConfig) (b : Bool) (s : SpeakerState)
    (h : s.recording = true) :
    (stop_recording cfg b s).fst.recording = false ∧
    (stop_recording cfg b s).fst.mic_muted = true ∧
    (stop_recording cfg b s).fst.recording_task = TaskStatus.cancelled ∧
    (stop_recording cfg b s).fst.stream = none ∧
    (stop_recording cfg b s).fst.message_handler = s.message_handler ∧
    (stop_recording cfg b s).fst.commands_task = s.commands_task := by
  obtain ⟨st, ns, fr, rec, mm, sm, rd, rt, stt, mh, ct, hw⟩ := s
  simp only at h
  subst h
  cases st <;> cases b <;> cases fr <;>
    simp [stop_recording, closeStreamFinally]

/-- C8 counterexample: after cleanup on the state reached by start, the
message-handler and command-handler tasks are still runnable; cleanup
cancels neither. -/
theorem cleanup_leaves_handler_tasks_runnable :
    (cleanup wavCfg false (start_setup initState)).fst.message_handler =
      TaskStatus.running ∧
    (cleanup wavCfg false (start_setup initState)).fst.commands_task =
      TaskStatus.running ∧
    (cleanup wavCfg false (start_setup initState)).fst.message_handler ≠
      TaskStatus.cancelled := by
  decide

/-- C8 (amended): cleanup releases the audio handler, the transport client,
the hardware controller and PyAudio, and, when a recording is active,
cancels the recording task, clears the recording flag and closes the
capture stream; but it leaves the message-handler and command-handler
tasks exactly as they were, cancelling neither. -/
theorem cleanup_releases_handles (cfg : WavConfig) (b : Bool) (s : SpeakerState) :
    Event.stopStreaming ∈ (cleanup cfg b s).snd ∧
    Event.audioCleanup ∈ (cleanup cfg b s).snd ∧
    Event.clientClose ∈ (cleanup cfg b s).snd ∧
    Event.terminateAudio ∈ (cleanup cfg b s).snd ∧
    (cleanup cfg b s).fst.message_handler = s.message_handler ∧
    (cleanup cfg b s).fst.commands_task = s.commands_task ∧
    (s.recording = true →
      (cleanup cfg b s).fst.recording = false ∧
      (cleanup cfg b s).fst.recording_task = TaskStatus.cancelled ∧
      (cleanup cfg b s).fst.stream = none) := by
  cases hrec : s.recording with
  | false =>
    cases hhw : s.hardware_started <;>
      simp [cleanup, hrec, hhw]
  | true =>
    have hf := stop_recording_fields cfg b s hrec
    cases hhw : s.hardware_started <;>
      simp [cleanup, hrec, hhw, hf.1, hf.2.1, hf.2.2.1, hf.2.2.2.1,
        hf.2.2.2.2.1, hf.2.2.2.2.2]

/-- Witness for the amended C8 on a state with an active recording. -/
theorem cleanup_releases_handles_witness :
    Event.clientClose ∈
      (cleanup wavCfg false (start_recording true readyInit).fst).snd ∧
    (cleanup wavCfg false (start_recording true readyInit).fst).fst.recording
      = false ∧
    (cleanup wavCfg false (start_recording true readyInit).fst).fst.recording_task
      = TaskStatus.cancelled :=
  ⟨(cleanup_releases_handles wavCfg false (start_recording true readyInit).fst).2.2.1,
    ((cleanup_releases_handles wavCfg false
      (start_recording true readyInit).fst).2.2.2.2.2.2 (by decide)).1,
    ((cleanup_releases_handles wavCfg false
      (start_recording true readyInit).fst).2.2.2.2.2.2 (by decide)).2.1⟩

/-- The capture loop never touches the mute flags. -/
theorem record_audio_flags (rs : List ReadResult) (s : SpeakerState) :
    (record_audio rs s).fst.mic_muted = s.mic_muted ∧
    (record_audio rs s).fst.speaker_muted = s.speaker_muted := by
  induction rs generalizing s with
  | nil => simp [record_audio]
  | cons r rest ih =>
    cases hrec : s.recording with
    | false => simp [record_audio, hrec]
    | true =>
      cases r with
      | ok d => simpa [record_audio, hrec] using ih { s with frames := s.frames ++ [d] }
      | err m => simp [record_audio, hrec]

/-- Starting a recording never touches the speaker-mute flag. -/
theorem start_recording_speaker (b : Bool) (s : SpeakerState) :
    (start_recording b s).fst.speaker_muted = s.speaker_muted := by
  obtain ⟨st, ns, fr, rec, mm, sm, rd, rt, stt, mh, ct, hw⟩ := s
  cases rec <;> cases b <;> simp [start_recording]

/-- Stopping a recording leaves a muted mic muted. -/
theorem stop_recording_mic (cfg : WavConfig) (b : Bool) (s : SpeakerState)
    (h : s.mic_muted = true) :
    (stop_recording cfg b s).fst.mic_muted = true := by
  cases hrec : s.recording with
  | false => simp [stop_recording, hrec, h]
  | true => exact (stop_recording_fields cfg b s hrec).2.1

/-- Each command handler reestablishes mute-flag exclusivity. -/
theorem handleCommand_muteExclusive (cfg : WavConfig) (o r : Bool) (c : String)
    (s : SpeakerState) (h : muteExclusive s = true) :
    muteExclusive (handleCommand cfg o r c s).fst = true := by
  unfold handleCommand
  split
  · exact h
  · split
    · unfold unmute_mic_and_stop_playback
      have hsp := start_recording_speaker o
        { s with speaker_muted := true, mic_muted := false }
      simp only [muteExclusive]
      simp at hsp
      simp [hsp]
    · split
      · unfold mute_mic_and_manage_output
        have hm := stop_recording_mic cfg r
          { s with speaker_muted := false, mic_muted := true } (by simp)
        simp [muteExclusive, hm]
      · exact h

/-- C9: mute-flag exclusivity: in the initial session state and after any
sequence of stimuli (commands, capture reads, audio deltas, interrupts),
the mic-muted and speaker-muted flags are never both false; and play_audio
emits nothing to the speaker while the speaker is muted. -/
theorem mute_flags_exclusive (cfg : WavConfig) (steps : List Step) :
    muteExclusive (runSteps cfg steps initState) = true ∧
    ∀ (d : List Nat) (s : SpeakerState), s.speaker_muted = true →
      play_audio d s = [] := by
  constructor
  · have inv : ∀ (l : List Step) (s : SpeakerState), muteExclusive s = true →
        muteExclusive (runSteps cfg l s) = true := by
      intro l
      induction l with
      | nil => intro s hs; simpa [runSteps] using hs
      | cons st rest ih =>
        intro s hs
        simp only [runSteps]
        apply ih
        cases st with
        | cmd c o r => exact handleCommand_muteExclusive cfg o r c s hs
        | reads rs =>
          have hfl := record_audio_flags rs s
          simp only [stepRun, muteExclusive] at hs ⊢
          rw [hfl.1, hfl.2]
          exact hs
        | audioDelta d => simpa [stepRun] using hs
        | interrupt => simpa [stepRun] using hs
    exact inv steps initState (by decide)
  · intro d s hs
    simp [play_audio, hs]

/-- Witness for C9 after a record command, with a muted-speaker playback
attempt. -/
theorem mute_flags_exclusive_witness :
    muteExclusive (runSteps wavCfg [Step.cmd "r" true false] initState) = true ∧
    play_audio [7] { initState with speaker_muted := true } = [] :=
  ⟨(mute_flags_exclusive wavCfg [Step.cmd "r" true false]).1,
    (mute_flags_exclusive wavCfg [Step.cmd "r" true false]).2 [7]
      { initState with speaker_muted := true } (by decide)⟩

/-- C10: stopping a recording during which zero frames were captured makes
no send_audio call, while the recording flag is still cleared, the mic is
muted, and the capture stream is still stopped and closed by the finally
clause. -/
theorem empty_turn_no_send (cfg : WavConfig) (b : Bool) (s : SpeakerState)
    (k : Nat) (h : s.recording = true) (hf : s.frames = [])
    (hs : s.stream = some k) :
    sendAudioCount (stop_recording cfg b s).snd = 0 ∧
    (stop_recording cfg b s).fst.recording = false ∧
    (stop_recording cfg b s).fst.mic_muted = true ∧
    (stop_recording cfg b s).fst.stream = none ∧
    Event.closeStream k ∈ (stop_recording cfg b s).snd := by
  refine ⟨?_, ?_, ?_, ?_, ?_⟩ <;>
    simp [stop_recording, h, hf, closeStreamFinally, hs, sendAudioCount,
      isSendAudio, List.countP_cons, List.countP_nil]

/-- Witness for C10 on a freshly started recording with no captured
frames. -/
theorem empty_turn_no_send_witness :
    sendAudioCount
      (stop_recording wavCfg false (start_recording true readyInit).fst).snd = 0 ∧
    (stop_recording wavCfg false (start_recording true readyInit).fst).fst.recording
      = false ∧
    (stop_recording wavCfg false (start_recording true readyInit).fst).fst.mic_muted
      = true ∧
    (stop_recording wavCfg false (start_recording true readyInit).fst).fst.stream
      = none ∧
    Event.closeStream 0 ∈
      (stop_recording wavCfg false (start_recording true readyInit).fst).snd :=
  empty_turn_no_send wavCfg false (start_recording true readyInit).fst 0
    (by decide) (by decide) (by decide)

end STS
